import Mathlib

/-!
Verification of the timed download-release and delivery protocol of the
`myne7x-premium` storefront, as implemented in the `DownloadComponent`
source file (countdown gate plus `startDownload` delivery cascade).

The component is embedded shallowly:
* the filename derivation of `startDownload` becomes pure string functions
  (`basenameOf`, `fileExtension`, `sanitizedTitle`, `downloadFilename`);
* the countdown `useEffect` becomes a step function on a `GateState`;
* `startDownload` itself becomes a pure function from the product, an
  environment describing the external collaborators (storage, network,
  anchor click) and the incoming `downloadComplete` flag to a `DResult`
  recording the final flags, every collaborator invocation and the
  user-visible outcome.
-/

/-- Whitespace as matched by the JavaScript regex class `\s` (and removed by
`String.prototype.trim`): ASCII whitespace, NBSP, and the Unicode space
separators plus line separators and BOM. -/
def isJsSpace (c : Char) : Bool :=
  c = ' ' || c = '\t' || c = '\n' || c.toNat = 11 || c.toNat = 12 || c = '\r' ||
  c.toNat = 0xa0 || c.toNat = 0x1680 || (0x2000 ≤ c.toNat && c.toNat ≤ 0x200a) ||
  c.toNat = 0x2028 || c.toNat = 0x2029 || c.toNat = 0x202f || c.toNat = 0x205f ||
  c.toNat = 0x3000 || c.toNat = 0xfeff

/-- Characters kept by `title.replace(/[^a-zA-Z0-9\s\-_]/g, '')`:
the class `[a-zA-Z0-9\s\-_]`. -/
def allowedChar (c : Char) : Bool :=
  ('a' ≤ c && c ≤ 'z') || ('A' ≤ c && c ≤ 'Z') || ('0' ≤ c && c ≤ '9') ||
  isJsSpace c || c = '-' || c = '_'

/-- `replace(/\s+/g, '_')` on a character list: each maximal run of
whitespace characters is replaced by a single underscore.  The flag records
whether we are inside a whitespace run (so only its first character emits
the underscore). -/
def collapseWsAux : Bool → List Char → List Char
  | _, [] => []
  | inRun, c :: cs =>
    if isJsSpace c then
      (if inRun then [] else ['_']) ++ collapseWsAux true cs
    else
      c :: collapseWsAux false cs

/-- `String.prototype.trim`: drop JS whitespace from both ends. -/
def trimChars (l : List Char) : List Char :=
  ((l.dropWhile isJsSpace).reverse.dropWhile isJsSpace).reverse

/-- JavaScript `String.prototype.split` with a one-character separator:
`""` splits to `[""]`, separators at the ends produce empty fields. -/
def splitOnChar (sep : Char) : List Char → List (List Char)
  | [] => [[]]
  | c :: cs =>
    match splitOnChar sep cs with
    | [] => if c = sep then [[], [c]] else [[c]]
    | h :: t => if c = sep then [] :: h :: t else (c :: h) :: t

/-- Line 40 of the component:
`let filename = product.file_url.split('/').pop() || product.file_url;`
— the segment after the last `/`, falling back to the whole string when
that segment is empty (JS `||` treats `""` as falsy). -/
def basenameOf (fileUrl : String) : String :=
  let last := String.mk ((splitOnChar '/' fileUrl.toList).getLastD [])
  if last = "" then fileUrl else last

/-- Line 43 of the component:
`filename.includes('.') ? '.' + filename.split('.').pop() : '.zip'`. -/
def fileExtension (filename : String) : String :=
  if filename.toList.contains '.' then
    "." ++ String.mk ((splitOnChar '.' filename.toList).getLastD [])
  else ".zip"

/-- Lines 46–49 of the component: strip every character outside
`[a-zA-Z0-9\s\-_]`, replace every whitespace run by a single underscore,
then `trim()` (in exactly that order, as the source chains the calls). -/
def sanitizedTitle (title : String) : String :=
  String.mk (trimChars (collapseWsAux false (title.toList.filter allowedChar)))

/-- Line 51 of the component:
`const downloadFilename = sanitizedTitle + fileExtension;`, where
`fileExtension` is computed from the basename of `file_url`. -/
def downloadFilename (title fileUrl : String) : String :=
  sanitizedTitle title ++ fileExtension (basenameOf fileUrl)

/-!  Spec-side readings of the Derived Filename, used to compare the
sentence of the specification with the computation of the source. -/

/-- The basename as the specification's formula words it: the substring of
`fileRef` after its last `/` (empty when `fileRef` ends in `/`). -/
def claimBasename (fileRef : String) : String :=
  String.mk ((splitOnChar '/' fileRef.toList).getLastD [])

/-- Derived Filename exactly as the claim words it: sanitized title,
followed by the extension taken after the last `.` of `fileRef`'s
basename, or `.zip` if the basename contains no `.`. -/
def claimFilename (title fileRef : String) : String :=
  sanitizedTitle title ++
    (if (claimBasename fileRef).toList.contains '.' then
      "." ++ String.mk ((splitOnChar '.' (claimBasename fileRef).toList).getLastD [])
    else ".zip")

/-- The amended basename: the substring of `fileRef` after its last `/`,
except that when this substring is empty the whole `fileRef` is used in
its place (matching the `|| product.file_url` fallback of line 40). -/
def amendedBasename (fileRef : String) : String :=
  if claimBasename fileRef = "" then fileRef else claimBasename fileRef

/-- Derived Filename as the amended claim words it: sanitized title plus
the extension of the amended basename (`.zip` when it has no `.`). -/
def amendedFilename (title fileRef : String) : String :=
  sanitizedTitle title ++ fileExtension (amendedBasename fileRef)

/-!  ## Release Gate

Lines 21–32 of the component.  `countdown` starts at 30 (line 21); the
`useEffect` with dependencies `[countdown, downloadComplete]` schedules a
1-second timer decrementing `countdown` while `countdown > 0` and delivery
has not completed, calls `startDownload()` when `countdown === 0` and
delivery has not completed, and cancels the pending timer in its cleanup.
A `GateState` carries the two pieces of React state, whether a timer is
currently pending, and how often the automatic trigger has fired. -/

structure GateState where
  countdown : Int
  downloadComplete : Bool
  timerScheduled : Bool
  autoTriggers : Nat
deriving DecidableEq, Repr

/-- The body of the `useEffect` (lines 26–31), run after a render caused
by a change of `countdown` or `downloadComplete`: schedule a decrementing
timer, or fire the automatic delivery trigger, or do nothing. -/
def runEffect (s : GateState) : GateState :=
  if 0 < s.countdown ∧ s.downloadComplete = false then
    { s with timerScheduled := true }
  else if s.countdown = 0 ∧ s.downloadComplete = false then
    { s with timerScheduled := false, autoTriggers := s.autoTriggers + 1 }
  else
    { s with timerScheduled := false }

/-- One elapsed second: if a timer is pending it fires,
`setCountdown(countdown - 1)` runs, and the effect re-runs on the new
state.  With no pending timer nothing happens. -/
def tickGate (s : GateState) : GateState :=
  if s.timerScheduled then
    runEffect { s with countdown := s.countdown - 1, timerScheduled := false }
  else s

/-- The state right after the component is presented: `countdown = 30`
(line 21), flags clear, and the effect has run once. -/
def initialGate : GateState :=
  runEffect { countdown := 30, downloadComplete := false,
              timerScheduled := false, autoTriggers := 0 }

/-- The gate after `n` seconds of an undisturbed countdown (delivery has
not completed, the presentation stays open). -/
def gateAfter : Nat → GateState
  | 0 => initialGate
  | n + 1 => tickGate (gateAfter n)

/-- Closing the presentation while a timer is pending runs the effect
cleanup `clearTimeout(timer)` (line 28) and unmounts the component, so no
further effect ever runs. -/
def closeGate (s : GateState) : GateState :=
  { s with timerScheduled := false }

/-- `n` further elapsed seconds from an arbitrary gate state. -/
def iterateTick (s : GateState) : Nat → GateState
  | 0 => s
  | n + 1 => tickGate (iterateTick s n)

theorem gateAfter_lt (n : Nat) (h : n < 30) :
    gateAfter n = ⟨30 - (n : Int), false, true, 0⟩ := by
  induction n with
  | zero => decide
  | succ m ih =>
    have hm : m < 30 := Nat.lt_of_succ_lt h
    have hm' : m < 29 := by omega
    rw [gateAfter, ih hm]
    simp only [tickGate, runEffect]
    have h1 : 0 < 30 - (m : Int) - 1 := by
      have : (m : Int) < 29 := by exact_mod_cast hm'
      omega
    simp [h1]
    omega

theorem gateAfter_ge (n : Nat) (h : 30 ≤ n) :
    gateAfter n = ⟨0, false, false, 1⟩ := by
  induction n with
  | zero => omega
  | succ m ih =>
    rcases Nat.lt_or_ge m 30 with hm | hm
    · have hm29 : m = 29 := by omega
      subst hm29
      rw [gateAfter, gateAfter_lt 29 (by omega)]
      decide
    · rw [gateAfter, ih hm]
      decide

/-!  ## Delivery Orchestrator

Lines 34–168 of the component: `startDownload`.  The external
collaborators — Supabase storage (`createSignedUrl`), the network
(`fetch`) and the browser anchor click — are modelled by an `Env` value
describing how each behaves during the attempt.  The function returns a
`DResult` recording the `setIsDownloading` calls, the final
`downloadComplete` flag, every collaborator invocation (storage calls,
fetched URLs, anchor navigations with their `download` attribute, full
`window.location.href` navigations) and the user-visible outcome. -/

structure Product where
  id : String
  title : String
  price : Int
  file_url : Option String
deriving DecidableEq, Repr

/-- The `{ data, error }` reply of
`supabase.storage.from('product-files').createSignedUrl(filename, 3600)`:
an error message, or a possibly-missing `data?.signedUrl`. -/
structure StorageResponse where
  error : Option String
  signedUrl : Option String
deriving DecidableEq, Repr

/-- Behaviour of `fetch(data.signedUrl, ...)` during the attempt: either
the call rejects, or it resolves to a response with the given status. -/
inductive FetchOutcome where
  | throws (msg : String)
  | resp (status : Nat)
deriving DecidableEq, Repr

/-- `response.ok`: status in the 2xx range. -/
def respOk (status : Nat) : Bool :=
  200 ≤ status && status ≤ 299

/-- One delivery attempt's external world: the storage reply, the fetch
behaviour, and whether the fallback anchor click (line 130) throws. -/
structure Env where
  storage : StorageResponse
  fetch : FetchOutcome
  anchorThrows : Bool
deriving DecidableEq, Repr

/-- User-visible outcome of an attempt: the success toast title
(`"Download Complete"` for the blob strategy, `"Download Started"` for the
fallbacks) or the failure toast description. -/
inductive Outcome where
  | success (toastTitle : String)
  | failure (reason : String)
deriving DecidableEq, Repr

/-- Everything observable once a `startDownload` invocation settles. -/
structure DResult where
  setDownloadingEvents : List Bool
  downloadComplete : Bool
  storageCalls : Nat
  fetchRequests : List String
  anchorNavigations : List (String × String)
  locationNavigations : List String
  outcome : Outcome
deriving DecidableEq, Repr

/-- `startDownload` (lines 34–168), given the product, the environment
and the value of `downloadComplete` when the attempt begins.  Every
branch mirrors the source: missing `file_url` throws
`'No file available for download'`; a storage error throws
`` `Storage error: ${error.message}` ``; a missing `data?.signedUrl`
throws `'Unable to create secure download link'`; the blob strategy
throws on a rejected fetch or a non-ok status and falls through to the
anchor strategy, which falls through to `window.location.href`; the outer
`catch` surfaces the message and the `finally` clears `isDownloading`. -/
def startDownload (p : Product) (env : Env) (dc0 : Bool) : DResult :=
  match p.file_url with
  | none =>
    { setDownloadingEvents := [true, false], downloadComplete := dc0,
      storageCalls := 0, fetchRequests := [], anchorNavigations := [],
      locationNavigations := [],
      outcome := .failure "No file available for download" }
  | some fileUrl =>
    let fn := downloadFilename p.title fileUrl
    match env.storage.error with
    | some msg =>
      { setDownloadingEvents := [true, false], downloadComplete := dc0,
        storageCalls := 1, fetchRequests := [], anchorNavigations := [],
        locationNavigations := [],
        outcome := .failure ("Storage error: " ++ msg) }
    | none =>
      match env.storage.signedUrl with
      | none =>
        { setDownloadingEvents := [true, false], downloadComplete := dc0,
          storageCalls := 1, fetchRequests := [], anchorNavigations := [],
          locationNavigations := [],
          outcome := .failure "Unable to create secure download link" }
      | some url =>
        match env.fetch with
        | .resp status =>
          if respOk status then
            { setDownloadingEvents := [true, false], downloadComplete := true,
              storageCalls := 1, fetchRequests := [url],
              anchorNavigations := [], locationNavigations := [],
              outcome := .success "Download Complete" }
          else if env.anchorThrows then
            { setDownloadingEvents := [true, false], downloadComplete := true,
              storageCalls := 1, fetchRequests := [url],
              anchorNavigations := [(url, fn)], locationNavigations := [url],
              outcome := .success "Download Started" }
          else
            { setDownloadingEvents := [true, false], downloadComplete := true,
              storageCalls := 1, fetchRequests := [url],
              anchorNavigations := [(url, fn)], locationNavigations := [],
              outcome := .success "Download Started" }
        | .throws _ =>
          if env.anchorThrows then
            { setDownloadingEvents := [true, false], downloadComplete := true,
              storageCalls := 1, fetchRequests := [url],
              anchorNavigations := [(url, fn)], locationNavigations := [url],
              outcome := .success "Download Started" }
          else
            { setDownloadingEvents := [true, false], downloadComplete := true,
              storageCalls := 1, fetchRequests := [url],
              anchorNavigations := [(url, fn)], locationNavigations := [],
              outcome := .success "Download Started" }

/-- The blob strategy (Step 1 of the cascade) fails when the fetch
rejects or the response status is not ok (lines 80–82, 117). -/
def fetchStrategyFails : FetchOutcome → Bool
  | .throws _ => true
  | .resp status => !respOk status

/-!  ## Helper lemmas -/

theorem tickGate_of_unscheduled (s : GateState) (h : s.timerScheduled = false) :
    tickGate s = s := by
  unfold tickGate
  rw [h]
  simp

theorem iterateTick_of_unscheduled (s : GateState) (h : s.timerScheduled = false) :
    ∀ n, iterateTick s n = s
  | 0 => rfl
  | n + 1 => by
    rw [iterateTick, iterateTick_of_unscheduled s h n, tickGate_of_unscheduled s h]

theorem startDownload_complete_or_success (p : Product) (env : Env) (dc0 : Bool) :
    (startDownload p env dc0).downloadComplete = dc0 ∨
    ∃ t, (startDownload p env dc0).outcome = Outcome.success t := by
  unfold startDownload
  repeat' split
  all_goals first
    | exact Or.inl rfl
    | exact Or.inr ⟨_, rfl⟩

theorem startDownload_storageCalls_of_some (p : Product) (env : Env) (dc0 : Bool)
    (fileUrl : String) (hf : p.file_url = some fileUrl) :
    (startDownload p env dc0).storageCalls = 1 := by
  unfold startDownload
  rw [hf]
  repeat' split
  all_goals simp_all

/-!  ## The claims -/

/-- Claim C1: for every presentation, while delivery has not completed the
countdown decreases by exactly 1 per tick, never goes below 0 and never
exceeds its initial value 30, and the automatic delivery trigger fires
exactly once, at the tick where the countdown transitions from 1 to 0. -/
theorem C1_gate_countdown :
    (∀ n : Nat, 0 ≤ (gateAfter n).countdown ∧ (gateAfter n).countdown ≤ 30) ∧
    (∀ n : Nat, n < 30 → (gateAfter (n + 1)).countdown = (gateAfter n).countdown - 1) ∧
    (gateAfter 29).countdown = 1 ∧ (gateAfter 30).countdown = 0 ∧
    (∀ n : Nat, (gateAfter n).autoTriggers = if n < 30 then 0 else 1) := by
  refine ⟨?_, ?_, ?_, ?_, ?_⟩
  · intro n
    rcases Nat.lt_or_ge n 30 with h | h
    · rw [gateAfter_lt n h]
      have : (n : Int) < 30 := by exact_mod_cast h
      exact ⟨by show (0 : Int) ≤ 30 - (n : Int); omega,
             by show 30 - (n : Int) ≤ 30; omega⟩
    · rw [gateAfter_ge n h]
      exact ⟨by norm_num, by norm_num⟩
  · intro n h
    rcases Nat.lt_or_ge (n + 1) 30 with h2 | h2
    · rw [gateAfter_lt (n + 1) h2, gateAfter_lt n h]
      push_cast
      ring
    · have hn : n = 29 := by omega
      subst hn
      rw [gateAfter_ge 30 (by norm_num), gateAfter_lt 29 (by norm_num)]
      norm_num
  · rw [gateAfter_lt 29 (by norm_num)]
    norm_num
  · rw [gateAfter_ge 30 (by norm_num)]
  · intro n
    rcases Nat.lt_or_ge n 30 with h | h
    · rw [gateAfter_lt n h, if_pos h]
    · rw [gateAfter_ge n h, if_neg (Nat.not_lt.mpr h)]

theorem C1_gate_countdown_witness :
    (gateAfter 6).countdown = (gateAfter 5).countdown - 1 ∧
    (gateAfter 45).autoTriggers = 1 :=
  ⟨C1_gate_countdown.2.1 5 (by norm_num),
   (C1_gate_countdown.2.2.2.2 45).trans (by norm_num)⟩

/-- Claim C9: closing the presentation while the countdown is still
positive cancels the pending timer, and the automatic delivery trigger
never fires afterwards, however many seconds elapse. -/
theorem C9_close_prevents_trigger (m n : Nat)
    (h : 0 < (gateAfter m).countdown) :
    (iterateTick (closeGate (gateAfter m)) n).autoTriggers = 0 := by
  have hm : m < 30 := by
    by_contra hge
    rw [gateAfter_ge m (Nat.le_of_not_lt hge)] at h
    exact absurd h (by norm_num)
  rw [iterateTick_of_unscheduled _ rfl n]
  show (gateAfter m).autoTriggers = 0
  rw [gateAfter_lt m hm]

theorem C9_close_prevents_trigger_witness :
    0 < (gateAfter 10).countdown ∧
    (iterateTick (closeGate (gateAfter 10)) 50).autoTriggers = 0 :=
  ⟨by rw [gateAfter_lt 10 (by norm_num)]; norm_num,
   C9_close_prevents_trigger 10 50
     (by rw [gateAfter_lt 10 (by norm_num)]; norm_num)⟩

/-- Claim C2 counterexample: for `title = "t"`, `fileRef = "a./"` the code
derives `"t./"` — the basename fallback of line 40 keeps the whole
`fileRef` (which contains a `.`), while the claim's formula takes the
empty basename after the last `/` and so defaults to `".zip"`. -/
theorem C2_formula_counterexample :
    downloadFilename "t" "a./" = "t./" ∧ claimFilename "t" "a./" = "t.zip" ∧
    downloadFilename "t" "a./" ≠ claimFilename "t" "a./" := by
  decide

/-- Claim C2 (amended): the Derived Filename equals the sanitized title
followed by the extension after the last `.` of the basename, where the
basename is the substring of `fileRef` after its last `/` except that an
empty such substring is replaced by the whole `fileRef`; the cited
example holds. -/
theorem C2_filename_formula :
    (∀ title fileRef : String,
      downloadFilename title fileRef = amendedFilename title fileRef) ∧
    downloadFilename "My Cool App!" "abc123.zip" = "My_Cool_App.zip" := by
  refine ⟨fun title fileRef => rfl, by decide⟩

/-- Claim C3 counterexample: the code does not produce
`"multi_space_name.zip"` for `title = "  multi   space  name"`,
`fileRef = "x"`. -/
theorem C3_leading_space_counterexample :
    downloadFilename "  multi   space  name" "x" ≠ "multi_space_name.zip" := by
  decide

/-- Claim C3 (amended): the leading whitespace run also collapses to an
underscore, and the `trim()` of line 49 runs after the replacement, when
no whitespace is left, so the result keeps a leading underscore:
`"_multi_space_name.zip"` (with the default `.zip` extension). -/
theorem C3_leading_space_value :
    downloadFilename "  multi   space  name" "x" = "_multi_space_name.zip" := by
  decide

/-- Claim C4 counterexample: an attempt that begins with
`downloadComplete = true` (a retry after a completed delivery) and ends
in a terminal storage failure leaves the flag `true` — the code never
resets it to `false`. -/
theorem C4_flag_counterexample :
    (startDownload ⟨"p1", "T", 0, some "f.zip"⟩
        ⟨⟨some "boom", none⟩, FetchOutcome.resp 200, false⟩ true).outcome =
      Outcome.failure "Storage error: boom" ∧
    (startDownload ⟨"p1", "T", 0, some "f.zip"⟩
        ⟨⟨some "boom", none⟩, FetchOutcome.resp 200, false⟩ true).downloadComplete ≠
      false := by
  decide

/-- Claim C4 (amended): every delivery attempt that begins with the
delivery-completed flag `false` and settles with a terminal failure
leaves the flag `false` (no failure path ever sets it); the code never
actively resets the flag, so an attempt that begins with the flag `true`
keeps it `true` even on failure. -/
theorem C4_failure_keeps_flag_clear (p : Product) (env : Env) (r : String)
    (h : (startDownload p env false).outcome = Outcome.failure r) :
    (startDownload p env false).downloadComplete = false := by
  rcases startDownload_complete_or_success p env false with h0 | ⟨t, ht⟩
  · exact h0
  · rw [ht] at h
    exact Outcome.noConfusion h

theorem C4_failure_keeps_flag_clear_witness :
    (startDownload ⟨"p1", "T", 0, none⟩
        ⟨⟨none, none⟩, FetchOutcome.resp 200, false⟩ false).downloadComplete = false :=
  C4_failure_keeps_flag_clear ⟨"p1", "T", 0, none⟩
    ⟨⟨none, none⟩, FetchOutcome.resp 200, false⟩
    "No file available for download" (by decide)

/-- Claim C5: when `file_url` is absent the attempt fails immediately
with the missing-file message (`'No file available for download'`), the
storage collaborator is never invoked, and no cascade strategy (fetch,
anchor, navigation) is attempted. -/
theorem C5_missing_file (p : Product) (env : Env) (dc0 : Bool)
    (h : p.file_url = none) :
    (startDownload p env dc0).outcome =
      Outcome.failure "No file available for download" ∧
    (startDownload p env dc0).storageCalls = 0 ∧
    (startDownload p env dc0).fetchRequests = [] ∧
    (startDownload p env dc0).anchorNavigations = [] ∧
    (startDownload p env dc0).locationNavigations = [] := by
  unfold startDownload
  rw [h]
  exact ⟨rfl, rfl, rfl, rfl, rfl⟩

theorem C5_missing_file_witness :
    (startDownload ⟨"p1", "T", 5, none⟩
        ⟨⟨none, some "u"⟩, FetchOutcome.resp 200, false⟩ true).storageCalls = 0 ∧
    (startDownload ⟨"p1", "T", 5, none⟩
        ⟨⟨none, some "u"⟩, FetchOutcome.resp 200, false⟩ true).fetchRequests = [] :=
  ⟨(C5_missing_file ⟨"p1", "T", 5, none⟩
      ⟨⟨none, some "u"⟩, FetchOutcome.resp 200, false⟩ true rfl).2.1,
   (C5_missing_file ⟨"p1", "T", 5, none⟩
      ⟨⟨none, some "u"⟩, FetchOutcome.resp 200, false⟩ true rfl).2.2.1⟩

/-- Claim C6: when the buffered fetch strategy fails (rejected fetch or
non-ok status) and the anchor click does not throw, the anchor strategy
is attempted with the same signed URL and the same Derived Filename, and
the attempt reports Success (the `"Download Started"` toast) with the
completed flag set. -/
theorem C6_anchor_fallback (p : Product) (env : Env) (dc0 : Bool)
    (fileUrl url : String)
    (hf : p.file_url = some fileUrl)
    (he : env.storage.error = none)
    (hu : env.storage.signedUrl = some url)
    (hfail : fetchStrategyFails env.fetch = true)
    (ha : env.anchorThrows = false) :
    (startDownload p env dc0).anchorNavigations =
      [(url, downloadFilename p.title fileUrl)] ∧
    (startDownload p env dc0).outcome = Outcome.success "Download Started" ∧
    (startDownload p env dc0).downloadComplete = true := by
  unfold startDownload
  rw [hf, he, hu]
  cases hfo : env.fetch with
  | throws m =>
    simp [ha]
  | resp s =>
    rw [hfo] at hfail
    unfold fetchStrategyFails at hfail
    rw [Bool.not_eq_eq_eq_not, Bool.not_true] at hfail
    simp [hfail, ha]

theorem C6_anchor_fallback_witness :
    (startDownload ⟨"p1", "My Cool App!", 0, some "abc123.zip"⟩
        ⟨⟨none, some "su"⟩, FetchOutcome.resp 404, false⟩ false).anchorNavigations =
      [("su", downloadFilename "My Cool App!" "abc123.zip")] ∧
    (startDownload ⟨"p1", "My Cool App!", 0, some "abc123.zip"⟩
        ⟨⟨none, some "su"⟩, FetchOutcome.resp 404, false⟩ false).outcome =
      Outcome.success "Download Started" :=
  ⟨(C6_anchor_fallback ⟨"p1", "My Cool App!", 0, some "abc123.zip"⟩
      ⟨⟨none, some "su"⟩, FetchOutcome.resp 404, false⟩ false
      "abc123.zip" "su" rfl rfl rfl (by decide) rfl).1,
   (C6_anchor_fallback ⟨"p1", "My Cool App!", 0, some "abc123.zip"⟩
      ⟨⟨none, some "su"⟩, FetchOutcome.resp 404, false⟩ false
      "abc123.zip" "su" rfl rfl rfl (by decide) rfl).2.1⟩

/-- Claim C7: when signed-URL issuance returns an error the attempt
terminates with the collaborator's message behind the
`"Storage error: "` prefix, and no cascade strategy runs. -/
theorem C7_storage_error_terminal (p : Product) (env : Env) (dc0 : Bool)
    (fileUrl msg : String)
    (hf : p.file_url = some fileUrl)
    (he : env.storage.error = some msg) :
    (startDownload p env dc0).outcome =
      Outcome.failure ("Storage error: " ++ msg) ∧
    (startDownload p env dc0).storageCalls = 1 ∧
    (startDownload p env dc0).fetchRequests = [] ∧
    (startDownload p env dc0).anchorNavigations = [] ∧
    (startDownload p env dc0).locationNavigations = [] := by
  unfold startDownload
  rw [hf, he]
  exact ⟨rfl, rfl, rfl, rfl, rfl⟩

theorem C7_storage_error_terminal_witness :
    (startDownload ⟨"p1", "T", 0, some "f.zip"⟩
        ⟨⟨some "boom", none⟩, FetchOutcome.resp 200, false⟩ false).outcome =
      Outcome.failure ("Storage error: " ++ "boom") ∧
    (startDownload ⟨"p1", "T", 0, some "f.zip"⟩
        ⟨⟨some "boom", none⟩, FetchOutcome.resp 200, false⟩ false).fetchRequests = [] :=
  ⟨(C7_storage_error_terminal ⟨"p1", "T", 0, some "f.zip"⟩
      ⟨⟨some "boom", none⟩, FetchOutcome.resp 200, false⟩ false
      "f.zip" "boom" rfl rfl).1,
   (C7_storage_error_terminal ⟨"p1", "T", 0, some "f.zip"⟩
      ⟨⟨some "boom", none⟩, FetchOutcome.resp 200, false⟩ false
      "f.zip" "boom" rfl rfl).2.2.1⟩

/-- Claim C8: re-invoking `startDownload` after a completed attempt calls
the storage collaborator again (once per attempt, no URL caching — the
second attempt fetches the URL issued by the second issuance), and a
successful second attempt sets the completed flag to `true` again. -/
theorem C8_reinvocation_fresh_url (p : Product) (env1 env2 : Env)
    (fileUrl u2 : String) (s : Nat)
    (hf : p.file_url = some fileUrl)
    (hc : (startDownload p env1 false).downloadComplete = true)
    (he : env2.storage.error = none)
    (hu : env2.storage.signedUrl = some u2)
    (hr : env2.fetch = FetchOutcome.resp s)
    (hok : respOk s = true) :
    (startDownload p env1 false).storageCalls = 1 ∧
    (startDownload p env2 (startDownload p env1 false).downloadComplete).storageCalls = 1 ∧
    (startDownload p env2 (startDownload p env1 false).downloadComplete).fetchRequests = [u2] ∧
    (startDownload p env2 (startDownload p env1 false).downloadComplete).downloadComplete = true := by
  rw [hc]
  refine ⟨startDownload_storageCalls_of_some p env1 false fileUrl hf, ?_, ?_, ?_⟩
  all_goals
    unfold startDownload
    rw [hf, he, hu, hr]
    simp [hok]

theorem C8_reinvocation_fresh_url_witness :
    (startDownload ⟨"p1", "T", 0, some "f.zip"⟩
        ⟨⟨none, some "u1"⟩, FetchOutcome.resp 200, false⟩ false).storageCalls = 1 ∧
    (startDownload ⟨"p1", "T", 0, some "f.zip"⟩
        ⟨⟨none, some "u2"⟩, FetchOutcome.resp 200, false⟩
        (startDownload ⟨"p1", "T", 0, some "f.zip"⟩
          ⟨⟨none, some "u1"⟩, FetchOutcome.resp 200, false⟩ false).downloadComplete).fetchRequests =
      ["u2"] :=
  ⟨(C8_reinvocation_fresh_url ⟨"p1", "T", 0, some "f.zip"⟩
      ⟨⟨none, some "u1"⟩, FetchOutcome.resp 200, false⟩
      ⟨⟨none, some "u2"⟩, FetchOutcome.resp 200, false⟩
      "f.zip" "u2" 200 rfl (by decide) rfl rfl rfl (by decide)).1,
   (C8_reinvocation_fresh_url ⟨"p1", "T", 0, some "f.zip"⟩
      ⟨⟨none, some "u1"⟩, FetchOutcome.resp 200, false⟩
      ⟨⟨none, some "u2"⟩, FetchOutcome.resp 200, false⟩
      "f.zip" "u2" 200 rfl (by decide) rfl rfl rfl (by decide)).2.2.1⟩

/-- Claim C10: every invocation of `startDownload` sets the in-progress
flag to `true` first (line 35) and clears it in the `finally`
(line 166), on every path — the recorded `setIsDownloading` calls are
always exactly `[true, false]`. -/
theorem C10_isDownloading_lifecycle (p : Product) (env : Env) (dc0 : Bool) :
    (startDownload p env dc0).setDownloadingEvents = [true, false] := by
  unfold startDownload
  repeat' split
  all_goals rfl
